import Mathlib

/-!
Verification of the QM feedback system's field validation and code
composition logic (src/main.py of mbrucker-kiel/qm-feedback-system).

The embedding models the three POST handlers `submit_rd`, `submit_klinik`
and `submit_lst`, the NK job-reference validation chain they share, the
order-number check of the hospital form, the RMC composite-code
construction, and the fire-and-forget persistence behaviour.

Modelling conventions:
- Python strings are Lean `String`s (a list of characters).  The forms
  supply Basic Latin text, so Python's `str.isdigit` is modelled by the
  decimal-digit test `Char.isDigit` on each character; like Python's
  `isdigit`, the model is `false` on the empty string.
- `datetime.strptime(s, "%y%m%d").date()` on a 6-digit string is modelled
  by `strptime_yymmdd`: Python's `%y` maps two-digit years 00-68 to
  2000-2068 and 69-99 to 1969-1999 (the pivot in `pivotYear`), and the
  parse succeeds exactly when month and day form a valid calendar date of
  that year (`strptime` raises `ValueError` otherwise, both when the
  format regex fails and when `datetime` rejects the day).
- Exceptions of the persistence layer are abstracted by a boolean
  `db_ok` argument: the `try`/`except` around the database block swallows
  any failure, so the handler's response is computed independently of it
  and the inserted record exists only when the block succeeded.
- `datetime.now().date()` is the `today` parameter.
-/

/-- A calendar date as produced by `datetime.date`. -/
structure Date where
  year : Nat
  month : Nat
  day : Nat
deriving DecidableEq, Repr

/-- The error taxonomy of the spec (section 7); each constructor stands for
one of the German error messages rendered by main.py. -/
inductive ValidationError where
  | InvalidSequence
  | InvalidDateFormat
  | YearTooOld
  | InvalidCalendarDate
  | FutureDate
  | InvalidOrderNumber
deriving DecidableEq, Repr

/-- The German error message main.py renders for each failure. -/
def errorMessage : ValidationError → String
  | .InvalidSequence => "Die laufende Nummer muss genau 5 Ziffern enthalten."
  | .InvalidDateFormat => "Das Datum muss im Format YYMMDD (6 Ziffern) sein."
  | .YearTooOld => "Das Jahr muss 25 oder höher sein."
  | .InvalidCalendarDate => "Ungültiges Datum (z.B. 30. Februar)."
  | .FutureDate => "Das Datum darf nicht in der Zukunft liegen."
  | .InvalidOrderNumber => "Die Auftragsnummer darf maximal 6 Ziffern enthalten."

/-- Python `s.isdigit()` on the Basic Latin text the forms supply: true iff
`s` is non-empty and every character is a decimal digit. -/
def py_isdigit (s : String) : Bool :=
  !s.data.isEmpty && s.data.all Char.isDigit

/-- Numeric value of a digit character. -/
def digitVal (c : Char) : Nat := c.toNat - '0'.toNat

/-- Python `int(s)` on a string of decimal digits. -/
def strToNat (s : String) : Nat :=
  s.data.foldl (fun a c => 10 * a + digitVal c) 0

/-- Python `s[:2]` followed by `int`: the numeric value of the two-character
prefix (applied only after the 6-digit format check). -/
def prefix2Val (s : String) : Nat :=
  strToNat (String.mk (s.data.take 2))

/-- Gregorian leap-year rule used by `datetime`. -/
def isLeapYear (y : Nat) : Bool :=
  y % 4 == 0 && (y % 100 != 0 || y % 400 == 0)

/-- Number of days of month `m` of year `y`, as `datetime` accepts them. -/
def daysInMonth (y m : Nat) : Nat :=
  if m = 2 then (if isLeapYear y then 29 else 28)
  else if m = 4 ∨ m = 6 ∨ m = 9 ∨ m = 11 then 30
  else 31

/-- Python `%y` century pivot: 00-68 become 2000-2068, 69-99 become
1969-1999. -/
def pivotYear (yy : Nat) : Nat :=
  if yy ≤ 68 then 2000 + yy else 1900 + yy

/-- Python `datetime.strptime(s, "%y%m%d").date()` on a 6-digit string:
`none` models the `ValueError` raised either by the format regex or by the
`datetime` constructor; otherwise the date with the pivoted year. -/
def strptime_yymmdd (s : String) : Option Date :=
  match s.data with
  | [y1, y2, m1, m2, d1, d2] =>
    let yy := 10 * digitVal y1 + digitVal y2
    let mm := 10 * digitVal m1 + digitVal m2
    let dd := 10 * digitVal d1 + digitVal d2
    let year := pivotYear yy
    if 1 ≤ mm ∧ mm ≤ 12 ∧ 1 ≤ dd ∧ dd ≤ daysInMonth year mm then
      some ⟨year, mm, dd⟩
    else
      none
  | _ => none

/-- Python `a > b` on `datetime.date` values (lexicographic on year, month,
day). -/
def dateAfter (a b : Date) : Bool :=
  if a.year ≠ b.year then decide (b.year < a.year)
  else if a.month ≠ b.month then decide (b.month < a.month)
  else decide (b.day < a.day)

/-- The NK-number validation chain shared verbatim by `submit_rd`
(main.py lines 176-228) and `submit_lst` (lines 361-408): sequence format,
date format, year floor, `strptime` parse, future check, then the rendered
reference. -/
def validate_job_reference (nk_date nk_sequence : String) (today : Date) :
    Except ValidationError String :=
  if nk_sequence.length != 5 || !py_isdigit nk_sequence then
    .error .InvalidSequence
  else if nk_date.length != 6 || !py_isdigit nk_date then
    .error .InvalidDateFormat
  else if prefix2Val nk_date < 25 then
    .error .YearTooOld
  else
    match strptime_yymmdd nk_date with
    | none => .error .InvalidCalendarDate
    | some d =>
      if dateAfter d today then .error .FutureDate
      else .ok ("NK " ++ nk_date ++ " " ++ nk_sequence)

/-- The order-number check of `submit_klinik` (main.py lines 295-305 and
the `int(auftragsnummer)` of line 333): at most `max_digits` characters and
`isdigit`, returning the integer value. -/
def validate_job_number (value : String) (max_digits : Nat) :
    Except ValidationError Nat :=
  if value.length > max_digits || !py_isdigit value then
    .error .InvalidOrderNumber
  else
    .ok (strToNat value)

/-- The separator of the RMZ reference-list entries. -/
def sepL : List Char := [' ', '-', ' ']

/-- Whether the list starts with the three characters of " - ". -/
def sepHead (cs : List Char) : Bool :=
  match cs with
  | a :: b :: c :: _ => a == ' ' && b == '-' && c == ' '
  | _ => false

/-- Python `' - ' in rmz`: some position starts the separator. -/
def hasSep : List Char → Bool
  | [] => false
  | c :: rest => sepHead (c :: rest) || hasSep rest

/-- The characters before the first occurrence of " - " (all of them when
there is none): the scan Python's `split(' - ')[0]` performs. -/
def beforeSep : List Char → List Char
  | [] => []
  | c :: rest => if sepHead (c :: rest) then [] else c :: beforeSep rest

/-- main.py line 308: `rmz.split(' - ')[0] if ' - ' in rmz else rmz`. -/
def rmz_code_of (rmz : String) : String :=
  if hasSep rmz.data then String.mk (beforeSep rmz.data) else rmz

/-- Python format `0>3` applied to a string: left-pad with '0' to width 3;
never truncates, strings of length at least 3 pass through unchanged. -/
def padZone3 (z : String) : String :=
  if z.length < 3 then String.mk (List.replicate (3 - z.length) '0') ++ z
  else z

/-- main.py line 311: the f-string concatenating the padded zone code and
the six single-digit answers, in fixed order, with no separators. -/
def compose_rmc_code
    (zone_code bewusstsein atmung kreislauf verletzung neurologie schmerz :
      String) : String :=
  padZone3 zone_code ++ bewusstsein ++ atmung ++ kreislauf ++ verletzung ++
    neurologie ++ schmerz

/-- Python list comprehension `[d for d in ds if d]` over optional strings:
keeps the truthy entries (present and non-empty), in order. -/
def truthyFilter : List (Option String) → List String
  | [] => []
  | none :: rest => truthyFilter rest
  | some s :: rest =>
    if s = "" then truthyFilter rest else s :: truthyFilter rest

/-- A handler's outcome: re-render the originating form template with an
error message, or render the success page with the source label. -/
inductive Response where
  | errorPage (template : String) (err : ValidationError)
  | successPage (source : String)
deriving DecidableEq, Repr

/-- The form fields of POST /rd/submit. -/
structure RDForm where
  nk_date : String
  nk_sequence : String
  rettungsmittel : String
  stichwort_check : String
  kommentar : Option String
deriving DecidableEq, Repr

/-- The row inserted into rd_feedback. -/
structure RDRecord where
  nk_nummer : String
  rettungsmittel : String
  stichwort_check : String
  kommentar : Option String
deriving DecidableEq, Repr

/-- main.py `submit_rd` (lines 166-259): validate the NK number, then
attempt the insert inside `try`/`except` (abstracted by `db_ok`) and
return the success page regardless of the database outcome. -/
def submit_rd (f : RDForm) (today : Date) (db_ok : Bool) :
    Response × Option RDRecord :=
  match validate_job_reference f.nk_date f.nk_sequence today with
  | .error e => (.errorPage "rd.html" e, none)
  | .ok nk_nummer =>
    (.successPage "Rettungsdienst",
     if db_ok then
       some ⟨nk_nummer, f.rettungsmittel, f.stichwort_check, f.kommentar⟩
     else none)

/-- The form fields of POST /leitstelle/submit. -/
structure LSTForm where
  nk_date : String
  nk_sequence : String
  sna_anpassung : String
  kommentar : Option String
deriving DecidableEq, Repr

/-- The row inserted into lst_feedback. -/
structure LSTRecord where
  nk_nummer : String
  sna_anpassung : String
  kommentar : Option String
deriving DecidableEq, Repr

/-- main.py `submit_lst` (lines 352-438): the same NK validation and
fire-and-forget insert as `submit_rd`, for the dispatch-center form. -/
def submit_lst (f : LSTForm) (today : Date) (db_ok : Bool) :
    Response × Option LSTRecord :=
  match validate_job_reference f.nk_date f.nk_sequence today with
  | .error e => (.errorPage "lst.html" e, none)
  | .ok nk_nummer =>
    (.successPage "Leitstelle",
     if db_ok then some ⟨nk_nummer, f.sna_anpassung, f.kommentar⟩ else none)

/-- The form fields of POST /klinik/submit. -/
structure KlinikForm where
  auftragsnummer : String
  rmz : String
  icd_1 : String
  icd_2 : Option String
  icd_3 : Option String
  mst : String
  kommentar : Option String
  rmc_bewusstsein : String
  rmc_atmung : String
  rmc_kreislauf : String
  rmc_verletzung : String
  rmc_neurologie : String
  rmc_schmerz : String
deriving DecidableEq, Repr

/-- The row inserted into klinik_feedback. -/
structure KlinikRecord where
  auftragsnummer : Nat
  rmz : String
  icds : String
  mst : String
  kommentar : Option String
  rmc_code : String
deriving DecidableEq, Repr

/-- main.py `submit_klinik` (lines 278-343): validate the order number,
extract the RMZ code, build the RMC code, join the truthy diagnoses with
commas, then attempt the insert inside `try`/`except` (abstracted by
`db_ok`) and return the success page regardless of the database outcome. -/
def submit_klinik (f : KlinikForm) (db_ok : Bool) :
    Response × Option KlinikRecord :=
  match validate_job_number f.auftragsnummer 6 with
  | .error e => (.errorPage "klinik.html" e, none)
  | .ok n =>
    let rmz_code := rmz_code_of f.rmz
    let rmc_code := compose_rmc_code rmz_code f.rmc_bewusstsein
      f.rmc_atmung f.rmc_kreislauf f.rmc_verletzung f.rmc_neurologie
      f.rmc_schmerz
    let diagnosen := truthyFilter [some f.icd_1, f.icd_2, f.icd_3]
    (.successPage "Klinik",
     if db_ok then
       some ⟨n, f.rmz, String.intercalate "," diagnosen, f.mst, f.kommentar,
             rmc_code⟩
     else none)

/-- Spec-side predicate: the sequence-format check passes. -/
def seq_ok (s : String) : Bool :=
  s.length == 5 && py_isdigit s

/-- Spec-side predicate: the date-format check passes. -/
def datefmt_ok (s : String) : Bool :=
  s.length == 6 && py_isdigit s

/-- Spec-side predicate: the year-floor check passes. -/
def yearfloor_ok (s : String) : Bool :=
  decide (25 ≤ prefix2Val s)

/-- Spec-side predicate: the calendar-validity check passes. -/
def calendar_ok (s : String) : Bool :=
  (strptime_yymmdd s).isSome

/-- Spec-side predicate: the future-date check passes (vacuously when the
date does not parse). -/
def future_ok (s : String) (today : Date) : Bool :=
  match strptime_yymmdd s with
  | some d => !dateAfter d today
  | none => true

/-- Modelled from the spec's words (section 4.1): parse the 6 digits under
the "YY MM DD convention (year is 2000+YY)" — the year is 2000+YY for every
YY, with no century pivot.  To be compared with `strptime_yymmdd`, the
parse the source performs. -/
def spec_parse_yymmdd (s : String) : Option Date :=
  match s.data with
  | [y1, y2, m1, m2, d1, d2] =>
    let yy := 10 * digitVal y1 + digitVal y2
    let mm := 10 * digitVal m1 + digitVal m2
    let dd := 10 * digitVal d1 + digitVal d2
    let year := 2000 + yy
    if 1 ≤ mm ∧ mm ≤ 12 ∧ 1 ≤ dd ∧ dd ≤ daysInMonth year mm then
      some ⟨year, mm, dd⟩
    else
      none
  | _ => none

/-- The date-side claim of C3, parameterised by the parse convention:
year floor first, then calendar validity, then the future check, else
success. -/
def nk_date_chain (parse : String → Option Date)
    (nk_date nk_sequence : String) (today : Date) : Prop :=
  (prefix2Val nk_date < 25 →
    validate_job_reference nk_date nk_sequence today = .error .YearTooOld) ∧
  (25 ≤ prefix2Val nk_date →
    (parse nk_date = none →
      validate_job_reference nk_date nk_sequence today =
        .error .InvalidCalendarDate) ∧
    (∀ d, parse nk_date = some d →
      (dateAfter d today = true →
        validate_job_reference nk_date nk_sequence today = .error .FutureDate) ∧
      (dateAfter d today = false →
        ∃ r, validate_job_reference nk_date nk_sequence today = .ok r)))

/-- Claim C3 as stated: the date checks follow the 2000+YY convention for
every well-formed input. -/
def claim_C3 : Prop :=
  ∀ nk_date nk_sequence : String, ∀ today : Date,
    nk_date.length = 6 → py_isdigit nk_date = true →
    nk_sequence.length = 5 → py_isdigit nk_sequence = true →
    nk_date_chain spec_parse_yymmdd nk_date nk_sequence today

/-- The entries a Python truthiness filter keeps from one optional slot:
nothing when absent or empty, the string itself otherwise. -/
def keptOpt : Option String → List String
  | none => []
  | some s => if s = "" then [] else [s]

lemma guard_seq (s : String) : (s.length != 5 || !py_isdigit s) = !seq_ok s := by
  cases h1 : s.length == 5 <;> cases h2 : py_isdigit s <;>
    simp [seq_ok, bne, h1, h2]

lemma guard_fmt (s : String) : (s.length != 6 || !py_isdigit s) = !datefmt_ok s := by
  cases h1 : s.length == 6 <;> cases h2 : py_isdigit s <;>
    simp [datefmt_ok, bne, h1, h2]

lemma validate_characterization (d s : String) (t : Date) :
    (validate_job_reference d s t = .error .InvalidSequence ↔ seq_ok s = false)
  ∧ (validate_job_reference d s t = .error .InvalidDateFormat ↔
      seq_ok s = true ∧ datefmt_ok d = false)
  ∧ (validate_job_reference d s t = .error .YearTooOld ↔
      seq_ok s = true ∧ datefmt_ok d = true ∧ yearfloor_ok d = false)
  ∧ (validate_job_reference d s t = .error .InvalidCalendarDate ↔
      seq_ok s = true ∧ datefmt_ok d = true ∧ yearfloor_ok d = true ∧
      calendar_ok d = false)
  ∧ (validate_job_reference d s t = .error .FutureDate ↔
      seq_ok s = true ∧ datefmt_ok d = true ∧ yearfloor_ok d = true ∧
      calendar_ok d = true ∧ future_ok d t = false)
  ∧ (validate_job_reference d s t = .ok ("NK " ++ d ++ " " ++ s) ↔
      seq_ok s = true ∧ datefmt_ok d = true ∧ yearfloor_ok d = true ∧
      calendar_ok d = true ∧ future_ok d t = true) := by
  unfold validate_job_reference
  rw [guard_seq s, guard_fmt d]
  cases hseq : seq_ok s <;>
    simp only [Bool.not_true, Bool.not_false, if_true, if_false]
  · simp
  cases hfmt : datefmt_ok d <;>
    simp only [Bool.not_true, Bool.not_false, if_true, if_false]
  · simp
  by_cases hyear : prefix2Val d < 25
  · have hy : yearfloor_ok d = false := by simp [yearfloor_ok, Nat.not_le, hyear]
    simp [hyear, hy]
  · have hy : yearfloor_ok d = true := by
      simp [yearfloor_ok, Nat.le_of_not_lt (by simpa using hyear)]
    simp only [if_neg hyear]
    cases hp : strptime_yymmdd d with
    | none => simp [calendar_ok, hp, hy]
    | some dt =>
      cases haft : dateAfter dt t <;>
        simp [calendar_ok, future_ok, hp, hy, haft]

lemma validate_ok_shape (d s : String) (t : Date) (r : String)
    (h : validate_job_reference d s t = .ok r) : r = "NK " ++ d ++ " " ++ s := by
  unfold validate_job_reference at h
  repeat any_goals split at h
  all_goals simp_all

lemma data_eq_nil_iff (s : String) : s.data = [] ↔ s = "" := by
  constructor
  · intro h
    cases s with
    | mk d =>
      have hd : d = [] := h
      subst hd
      rfl
  · intro h
    subst h
    rfl

/-- C1: the NK-number checks of `submit_rd` and `submit_lst` run in the
fixed order sequence-format, date-format, year-floor, calendar validity,
future-date; each error is reported exactly when its check is the first
one to fail, the success case requires all five to pass, and each handler
reports exactly the single error of the validation chain. -/
theorem C1_check_order_first_failure (nk_date nk_sequence : String) (today : Date) :
    (validate_job_reference nk_date nk_sequence today = .error .InvalidSequence ↔
      seq_ok nk_sequence = false)
  ∧ (validate_job_reference nk_date nk_sequence today = .error .InvalidDateFormat ↔
      seq_ok nk_sequence = true ∧ datefmt_ok nk_date = false)
  ∧ (validate_job_reference nk_date nk_sequence today = .error .YearTooOld ↔
      seq_ok nk_sequence = true ∧ datefmt_ok nk_date = true ∧
      yearfloor_ok nk_date = false)
  ∧ (validate_job_reference nk_date nk_sequence today = .error .InvalidCalendarDate ↔
      seq_ok nk_sequence = true ∧ datefmt_ok nk_date = true ∧
      yearfloor_ok nk_date = true ∧ calendar_ok nk_date = false)
  ∧ (validate_job_reference nk_date nk_sequence today = .error .FutureDate ↔
      seq_ok nk_sequence = true ∧ datefmt_ok nk_date = true ∧
      yearfloor_ok nk_date = true ∧ calendar_ok nk_date = true ∧
      future_ok nk_date today = false)
  ∧ ((∃ r, validate_job_reference nk_date nk_sequence today = .ok r) ↔
      seq_ok nk_sequence = true ∧ datefmt_ok nk_date = true ∧
      yearfloor_ok nk_date = true ∧ calendar_ok nk_date = true ∧
      future_ok nk_date today = true)
  ∧ (∀ rett stich komm db_ok e,
      (submit_rd ⟨nk_date, nk_sequence, rett, stich, komm⟩ today db_ok).1 =
        .errorPage "rd.html" e ↔
      validate_job_reference nk_date nk_sequence today = .error e)
  ∧ (∀ sna komm db_ok e,
      (submit_lst ⟨nk_date, nk_sequence, sna, komm⟩ today db_ok).1 =
        .errorPage "lst.html" e ↔
      validate_job_reference nk_date nk_sequence today = .error e) := by
  obtain ⟨h1, h2, h3, h4, h5, h6⟩ :=
    validate_characterization nk_date nk_sequence today
  refine ⟨h1, h2, h3, h4, h5, ?_, ?_, ?_⟩
  · constructor
    · rintro ⟨r, hr⟩
      have hshape := validate_ok_shape nk_date nk_sequence today r hr
      subst hshape
      exact h6.mp hr
    · intro hconds
      exact ⟨_, h6.mpr hconds⟩
  · intro rett stich komm db_ok e
    cases hv : validate_job_reference nk_date nk_sequence today with
    | error e' => simp [submit_rd, hv]
    | ok r => simp [submit_rd, hv]
  · intro sna komm db_ok e
    cases hv : validate_job_reference nk_date nk_sequence today with
    | error e' => simp [submit_lst, hv]
    | ok r => simp [submit_lst, hv]

/-- Witness for C1: a four-character sequence makes the first check fail
and the reported error is InvalidSequence. -/
theorem C1_check_order_first_failure_witness :
    validate_job_reference "250601" "1234" ⟨2025, 6, 1⟩ = .error .InvalidSequence :=
  ((C1_check_order_first_failure "250601" "1234" ⟨2025, 6, 1⟩).1).mpr (by decide)

/-- C2: a 5-character all-decimal-digit sequence passes the sequence check
(the call never reports InvalidSequence); any other length or any
non-decimal-digit character makes the call fail with InvalidSequence. -/
theorem C2_sequence_format (nk_date nk_sequence : String) (today : Date) :
    ((nk_sequence.length = 5 ∧ nk_sequence.data.all Char.isDigit = true) →
      validate_job_reference nk_date nk_sequence today ≠ .error .InvalidSequence)
  ∧ ((nk_sequence.length ≠ 5 ∨ ∃ c ∈ nk_sequence.data, ¬ c.isDigit) →
      validate_job_reference nk_date nk_sequence today = .error .InvalidSequence) := by
  obtain ⟨h1, _⟩ := validate_characterization nk_date nk_sequence today
  constructor
  · rintro ⟨hl, hd⟩ he
    have hfalse := h1.mp he
    have hne : nk_sequence.data ≠ [] := by
      intro hnil
      rw [show nk_sequence.length = nk_sequence.data.length from rfl, hnil] at hl
      simp at hl
    have htrue : seq_ok nk_sequence = true := by
      simp only [seq_ok, py_isdigit, hd, Bool.and_true]
      simp [hl, List.isEmpty_iff, hne]
    rw [htrue] at hfalse
    exact Bool.noConfusion hfalse
  · intro h
    apply h1.mpr
    rcases h with hl | ⟨c, hc, hcd⟩
    · simp [seq_ok, hl]
    · have hall : nk_sequence.data.all Char.isDigit = false := by
        rw [List.all_eq_false]
        exact ⟨c, hc, by simpa using hcd⟩
      simp [seq_ok, py_isdigit, hall]

/-- Witness for C2: "00007" passes the sequence check while "1234x" fails
with InvalidSequence. -/
theorem C2_sequence_format_witness :
    validate_job_reference "250601" "00007" ⟨2025, 6, 1⟩ ≠ .error .InvalidSequence ∧
    validate_job_reference "250601" "1234x" ⟨2025, 6, 1⟩ = .error .InvalidSequence :=
  ⟨(C2_sequence_format "250601" "00007" ⟨2025, 6, 1⟩).1 ⟨by decide, by decide⟩,
   (C2_sequence_format "250601" "1234x" ⟨2025, 6, 1⟩).2
     (Or.inr ⟨'x', by decide, by decide⟩)⟩

/-- C4: whenever the NK validation succeeds, the returned job reference is
exactly the string "NK " followed by the date, a space and the sequence. -/
theorem C4_success_rendering (nk_date nk_sequence : String) (today : Date)
    (r : String) (h : validate_job_reference nk_date nk_sequence today = .ok r) :
    r = "NK " ++ nk_date ++ " " ++ nk_sequence :=
  validate_ok_shape nk_date nk_sequence today r h

/-- Witness for C4: date 250601 with sequence 00007 renders
"NK 250601 00007". -/
theorem C4_success_rendering_witness :
    validate_job_reference "250601" "00007" ⟨2025, 6, 1⟩ = .ok "NK 250601 00007" ∧
    ("NK 250601 00007" : String) = "NK " ++ "250601" ++ " " ++ "00007" :=
  ⟨rfl, C4_success_rendering "250601" "00007" ⟨2025, 6, 1⟩ "NK 250601 00007" rfl⟩

/-- Counterexample to C3 as stated: under the 2000+YY convention the date
string 690101 parses to 2069-01-01, which is strictly after 2025-06-01, so
the claim demands FutureDate; the code maps 69 to 1969 (Python %y pivot)
and accepts the submission. -/
theorem C3_counterexample : ¬ claim_C3 := by
  intro h
  have hchain :=
    h "690101" "00001" ⟨2025, 6, 1⟩ (by decide) (by decide) (by decide) (by decide)
  have hfut := ((hchain.2 (by decide)).2 ⟨2069, 1, 1⟩ (by decide)).1 (by decide)
  have hok : validate_job_reference "690101" "00001" ⟨2025, 6, 1⟩ =
      .ok "NK 690101 00001" := rfl
  rw [hok] at hfut
  exact Except.noConfusion hfut

/-- C3 amended: for every 6-character all-decimal-digit date string, a
2-digit year below 25 fails with YearTooOld; otherwise the six digits must
form a valid calendar date under the YY MM DD convention with the Python
%y pivot (year 2000+YY for YY at most 68, 1969-1999 for YY from 69), else
InvalidCalendarDate; otherwise a parsed date strictly after current_date
fails with FutureDate; otherwise validation succeeds. -/
theorem C3_amended_date_checks (nk_date nk_sequence : String) (today : Date)
    (hd6 : nk_date.length = 6) (hdd : py_isdigit nk_date = true)
    (hs5 : nk_sequence.length = 5) (hsd : py_isdigit nk_sequence = true) :
    nk_date_chain strptime_yymmdd nk_date nk_sequence today := by
  obtain ⟨h1, h2, h3, h4, h5, h6⟩ :=
    validate_characterization nk_date nk_sequence today
  have hs : seq_ok nk_sequence = true := by simp [seq_ok, hs5, hsd]
  have hf : datefmt_ok nk_date = true := by simp [datefmt_ok, hd6, hdd]
  refine ⟨?_, ?_⟩
  · intro hyy
    exact h3.mpr ⟨hs, hf, by simp [yearfloor_ok, Nat.not_le, hyy]⟩
  · intro hyy
    have hyok : yearfloor_ok nk_date = true := by simp [yearfloor_ok, hyy]
    refine ⟨?_, ?_⟩
    · intro hp
      exact h4.mpr ⟨hs, hf, hyok, by simp [calendar_ok, hp]⟩
    · intro d hp
      refine ⟨?_, ?_⟩
      · intro haft
        exact h5.mpr ⟨hs, hf, hyok, by simp [calendar_ok, hp],
          by simp [future_ok, hp, haft]⟩
      · intro haft
        exact ⟨_, h6.mpr ⟨hs, hf, hyok, by simp [calendar_ok, hp],
          by simp [future_ok, hp, haft]⟩⟩

/-- Witness for the amended C3: year 24 is below the floor, so 240101 is
rejected with YearTooOld. -/
theorem C3_amended_date_checks_witness :
    validate_job_reference "240101" "00001" ⟨2025, 6, 1⟩ = .error .YearTooOld :=
  (C3_amended_date_checks "240101" "00001" ⟨2025, 6, 1⟩ (by decide) (by decide)
    (by decide) (by decide)).1 (by decide)

/-- C5: the order-number check succeeds exactly on non-empty all-digit
strings of at most 6 characters, returning the integer value of the
string; every other string fails with InvalidOrderNumber. -/
theorem C5_order_number (s : String) :
    ((s.data.all Char.isDigit = true ∧ s ≠ "" ∧ s.length ≤ 6) →
      validate_job_number s 6 = .ok (strToNat s))
  ∧ ((s.data.all Char.isDigit = false ∨ s = "" ∨ 6 < s.length) →
      validate_job_number s 6 = .error .InvalidOrderNumber) := by
  constructor
  · rintro ⟨hall, hne, hlen⟩
    have hnil : s.data ≠ [] := fun hn => hne ((data_eq_nil_iff s).mp hn)
    have hguard : (s.length > 6 || !py_isdigit s) = false := by
      simp only [py_isdigit, hall, Bool.and_true]
      simp [Nat.not_lt.mpr hlen, List.isEmpty_iff, hnil]
    simp [validate_job_number, hguard]
  · intro h
    have hguard : (s.length > 6 || !py_isdigit s) = true := by
      rcases h with hall | hemp | hlen
      · simp [py_isdigit, hall]
      · subst hemp
        simp [py_isdigit]
      · simp [hlen]
    simp [validate_job_number, hguard]

/-- Witness for C5: "007" is accepted with value 7 (leading zeros allowed)
while the 7-character "1234567" is rejected. -/
theorem C5_order_number_witness :
    validate_job_number "007" 6 = .ok (strToNat "007") ∧ strToNat "007" = 7 ∧
    validate_job_number "1234567" 6 = .error .InvalidOrderNumber :=
  ⟨(C5_order_number "007").1 ⟨by decide, by decide, by decide⟩, by decide,
   (C5_order_number "1234567").2 (Or.inr (Or.inr (by decide)))⟩

/-- C9: the empty order number is rejected: its length 0 is within the
6-character bound, but Python's all-digits test is false on the empty
string, so the check fails with InvalidOrderNumber. -/
theorem C9_empty_order_number_rejected :
    ("" : String).length ≤ 6 ∧ py_isdigit "" = false ∧
    validate_job_number "" 6 = .error .InvalidOrderNumber :=
  ⟨by decide, by decide, rfl⟩

lemma sepHead_iff (cs : List Char) :
    sepHead cs = true ↔ ∃ t, cs = ' ' :: '-' :: ' ' :: t := by
  match cs with
  | [] => simp [sepHead]
  | [a] => simp [sepHead]
  | [a, b] => simp [sepHead]
  | a :: b :: c :: t =>
    simp only [sepHead, Bool.and_eq_true, beq_iff_eq]
    constructor
    · rintro ⟨⟨ha, hb⟩, hc⟩
      exact ⟨t, by simp [ha, hb, hc]⟩
    · rintro ⟨t', ht⟩
      injection ht with h1 ht
      injection ht with h2 ht
      injection ht with h3 ht
      exact ⟨⟨h1, h2⟩, h3⟩

lemma hasSep_iff (cs : List Char) :
    hasSep cs = true ↔ ∃ p q, cs = p ++ sepL ++ q := by
  induction cs with
  | nil =>
    simp [hasSep, sepL]
  | cons c rest ih =>
    rw [hasSep, Bool.or_eq_true]
    constructor
    · rintro (hh | ht)
      · obtain ⟨t, he⟩ := (sepHead_iff _).mp hh
        exact ⟨[], t, by simp [sepL, he]⟩
      · obtain ⟨p, q, he⟩ := ih.mp ht
        exact ⟨c :: p, q, by simp [he]⟩
    · rintro ⟨p, q, he⟩
      cases p with
      | nil =>
        left
        apply (sepHead_iff _).mpr
        exact ⟨q, by simpa [sepL] using he⟩
      | cons c' p' =>
        right
        apply ih.mpr
        simp only [List.cons_append, List.cons.injEq] at he
        exact ⟨p', q, he.2⟩

lemma beforeSep_no_sep (cs : List Char) (h : hasSep cs = false) :
    beforeSep cs = cs := by
  induction cs with
  | nil => rfl
  | cons c rest ih =>
    rw [hasSep, Bool.or_eq_false_iff] at h
    rw [beforeSep, if_neg (by simp [h.1])]
    rw [ih h.2]

lemma beforeSep_first (cs : List Char) (h : hasSep cs = true) :
    (∃ q, cs = beforeSep cs ++ sepL ++ q) ∧
    (∀ p q, cs = p ++ sepL ++ q → (beforeSep cs).length ≤ p.length) := by
  induction cs with
  | nil => simp [hasSep] at h
  | cons c rest ih =>
    by_cases hh : sepHead (c :: rest) = true
    · obtain ⟨t, he⟩ := (sepHead_iff _).mp hh
      rw [beforeSep, if_pos hh]
      refine ⟨⟨t, by simpa [sepL] using he⟩, ?_⟩
      intro p q hpq
      simp
    · have h2 : hasSep rest = true := by
        rw [hasSep, Bool.or_eq_true] at h
        rcases h with h | h
        · exact absurd h hh
        · exact h
      obtain ⟨⟨q, hq⟩, hmin⟩ := ih h2
      rw [beforeSep, if_neg hh]
      constructor
      · exact ⟨q, by simpa using congrArg (c :: ·) hq⟩
      · rintro p q' hpq
        cases p with
        | nil =>
          exact absurd ((sepHead_iff _).mpr ⟨q', by simpa [sepL] using hpq⟩) hh
        | cons c' p' =>
          simp only [List.cons_append, List.cons.injEq] at hpq
          have := hmin p' q' hpq.2
          simp only [List.length_cons]
          omega

lemma data_append (a b : String) : (a ++ b).data = a.data ++ b.data := by
  cases a
  cases b
  rfl

lemma string_data_ext (a b : String) (h : a.data = b.data) : a = b := by
  cases a
  cases b
  exact congrArg String.mk h

lemma string_sep_iff (rmz : String) :
    (∃ pre post : String, rmz = pre ++ " - " ++ post) ↔
    (∃ p q : List Char, rmz.data = p ++ sepL ++ q) := by
  constructor
  · rintro ⟨pre, post, rfl⟩
    refine ⟨pre.data, post.data, ?_⟩
    rw [data_append, data_append]
    rfl
  · rintro ⟨p, q, hd⟩
    refine ⟨String.mk p, String.mk q, ?_⟩
    apply string_data_ext
    rw [data_append, data_append]
    have hsd : String.data " - " = sepL := rfl
    exact hd ▸ rfl

/-- C6: the zone code is right-justified and zero-padded to 3 characters
when shorter, used unchanged (never truncated) when 3 characters or more,
the composite length is the padded-zone length plus the answer lengths,
and a zone longer than 3 characters with single-character answers gives a
composite longer than 9 characters. -/
theorem C6_zone_padding_no_truncation (z cb ca ck cv cn cs : String) :
    (z.length < 3 →
      padZone3 z = String.mk (List.replicate (3 - z.length) '0') ++ z ∧
      (padZone3 z).length = 3)
  ∧ (3 ≤ z.length → padZone3 z = z)
  ∧ (compose_rmc_code z cb ca ck cv cn cs).length =
      (padZone3 z).length + cb.length + ca.length + ck.length + cv.length +
      cn.length + cs.length
  ∧ (3 < z.length → cb.length = 1 → ca.length = 1 → ck.length = 1 →
      cv.length = 1 → cn.length = 1 → cs.length = 1 →
      9 < (compose_rmc_code z cb ca ck cv cn cs).length) := by
  have hmk : ∀ l : List Char, (String.mk l).length = l.length := fun l => rfl
  refine ⟨?_, ?_, ?_, ?_⟩
  · intro h
    refine ⟨by simp [padZone3, h], ?_⟩
    rw [padZone3, if_pos h, String.length_append, hmk, List.length_replicate]
    omega
  · intro h
    simp [padZone3, Nat.not_lt.mpr h]
  · simp only [compose_rmc_code, String.length_append]
  · intro h3 h1 h2a h2b h2c h2d h2e
    have hz : padZone3 z = z := by
      simp [padZone3, Nat.not_lt.mpr (le_of_lt h3)]
    simp only [compose_rmc_code, String.length_append, hz, h1, h2a, h2b, h2c,
      h2d, h2e]
    omega

/-- Witness for C6: the 5-character zone "12345" is used unpadded and with
six single-digit answers "1" yields the 11-character "12345111111". -/
theorem C6_zone_padding_no_truncation_witness :
    padZone3 "12345" = "12345" ∧
    compose_rmc_code "12345" "1" "1" "1" "1" "1" "1" = "12345111111" ∧
    9 < (compose_rmc_code "12345" "1" "1" "1" "1" "1" "1").length :=
  ⟨(C6_zone_padding_no_truncation "12345" "1" "1" "1" "1" "1" "1").2.1
     (by decide),
   rfl,
   (C6_zone_padding_no_truncation "12345" "1" "1" "1" "1" "1" "1").2.2.2
     (by decide) (by decide) (by decide) (by decide) (by decide) (by decide)
     (by decide)⟩

/-- C7: the composite code is the padded zone code immediately followed by
the six answers in the fixed order consciousness, breathing, circulation,
injury, neurology, pain with no separators, and the zone code is the
substring of the reference-list entry preceding the first " - " separator
(the whole string when no separator occurs). -/
theorem C7_rmc_concatenation (rmz cb ca ck cv cn cs : String) :
    compose_rmc_code (rmz_code_of rmz) cb ca ck cv cn cs =
      padZone3 (rmz_code_of rmz) ++ cb ++ ca ++ ck ++ cv ++ cn ++ cs
  ∧ ((¬ ∃ pre post : String, rmz = pre ++ " - " ++ post) →
      rmz_code_of rmz = rmz)
  ∧ ((∃ pre post : String, rmz = pre ++ " - " ++ post) →
      (∃ post : String, rmz = rmz_code_of rmz ++ " - " ++ post) ∧
      (∀ pre post : String, rmz = pre ++ " - " ++ post →
        (rmz_code_of rmz).length ≤ pre.length)) := by
  refine ⟨rfl, ?_, ?_⟩
  · intro hno
    have hs : hasSep rmz.data = false := by
      rw [← Bool.not_eq_true, hasSep_iff]
      intro ⟨p, q, hpq⟩
      exact hno ((string_sep_iff rmz).mpr ⟨p, q, hpq⟩)
    simp [rmz_code_of, hs]
  · intro hyes
    have hs : hasSep rmz.data = true :=
      (hasSep_iff _).mpr ((string_sep_iff rmz).mp hyes)
    have hcode : rmz_code_of rmz = String.mk (beforeSep rmz.data) := by
      simp [rmz_code_of, hs]
    obtain ⟨⟨q, hq⟩, hmin⟩ := beforeSep_first rmz.data hs
    constructor
    · refine ⟨String.mk q, ?_⟩
      rw [hcode]
      apply string_data_ext
      rw [data_append, data_append]
      exact hq
    · intro pre post hpq
      rw [hcode]
      have hlen : (String.mk (beforeSep rmz.data)).length =
          (beforeSep rmz.data).length := rfl
      rw [hlen]
      have hdata : rmz.data = pre.data ++ sepL ++ post.data := by
        rw [hpq, data_append, data_append]
        rfl
      exact hmin pre.data post.data hdata

/-- Witness for C7: the entry "007 - Klinikum" yields zone code "007" and,
with the worked example answers of the spec, the composite "007121132". -/
theorem C7_rmc_concatenation_witness :
    rmz_code_of "007 - Klinikum" = "007" ∧
    (∃ post : String,
      "007 - Klinikum" = rmz_code_of "007 - Klinikum" ++ " - " ++ post) ∧
    compose_rmc_code (rmz_code_of "007 - Klinikum") "1" "2" "1" "1" "3" "2" =
      "007121132" :=
  ⟨rfl,
   ((C7_rmc_concatenation "007 - Klinikum" "1" "2" "1" "1" "3" "2").2.2
      ⟨"007", "Klinikum", rfl⟩).1,
   rfl⟩

/-- C8: the response of each handler is computed independently of the
persistence outcome; once validation passes, the submitter sees the
success page whether the database block succeeds or fails. -/
theorem C8_persistence_swallowed (f : RDForm) (kf : KlinikForm) (lf : LSTForm)
    (today : Date) (db_ok db_ok' : Bool) :
    ((submit_rd f today db_ok).1 = (submit_rd f today db_ok').1)
  ∧ ((∃ r, validate_job_reference f.nk_date f.nk_sequence today = .ok r) →
      (submit_rd f today db_ok).1 = .successPage "Rettungsdienst")
  ∧ ((submit_klinik kf db_ok).1 = (submit_klinik kf db_ok').1)
  ∧ ((∃ n, validate_job_number kf.auftragsnummer 6 = .ok n) →
      (submit_klinik kf db_ok).1 = .successPage "Klinik")
  ∧ ((submit_lst lf today db_ok).1 = (submit_lst lf today db_ok').1)
  ∧ ((∃ r, validate_job_reference lf.nk_date lf.nk_sequence today = .ok r) →
      (submit_lst lf today db_ok).1 = .successPage "Leitstelle") := by
  refine ⟨?_, ?_, ?_, ?_, ?_, ?_⟩
  · cases hv : validate_job_reference f.nk_date f.nk_sequence today <;>
      simp [submit_rd, hv]
  · rintro ⟨r, hr⟩
    simp [submit_rd, hr]
  · cases hv : validate_job_number kf.auftragsnummer 6 <;>
      simp [submit_klinik, hv]
  · rintro ⟨n, hn⟩
    simp [submit_klinik, hn]
  · cases hv : validate_job_reference lf.nk_date lf.nk_sequence today <;>
      simp [submit_lst, hv]
  · rintro ⟨r, hr⟩
    simp [submit_lst, hr]

/-- Witness for C8: with the database failing, a valid ambulance and a
valid hospital submission still see the success page. -/
theorem C8_persistence_swallowed_witness :
    (submit_rd ⟨"250601", "00007", "RTW 1", "passend", none⟩ ⟨2025, 6, 1⟩
        false).1 = .successPage "Rettungsdienst" ∧
    (submit_klinik ⟨"007", "007 - Klinikum", "A00", none, none, "Rot (Sofort)",
        none, "1", "2", "1", "1", "3", "2"⟩ false).1 = .successPage "Klinik" :=
  ⟨(C8_persistence_swallowed ⟨"250601", "00007", "RTW 1", "passend", none⟩
      ⟨"007", "007 - Klinikum", "A00", none, none, "Rot (Sofort)", none, "1",
        "2", "1", "1", "3", "2"⟩
      ⟨"250601", "00007", "keine", none⟩ ⟨2025, 6, 1⟩ false false).2.1
     ⟨"NK 250601 00007", rfl⟩,
   (C8_persistence_swallowed ⟨"250601", "00007", "RTW 1", "passend", none⟩
      ⟨"007", "007 - Klinikum", "A00", none, none, "Rot (Sofort)", none, "1",
        "2", "1", "1", "3", "2"⟩
      ⟨"250601", "00007", "keine", none⟩ ⟨2025, 6, 1⟩ false false).2.2.2.1
     ⟨7, rfl⟩⟩

lemma truthyFilter_three (a b c : Option String) :
    truthyFilter [a, b, c] = keptOpt a ++ keptOpt b ++ keptOpt c := by
  cases a <;> cases b <;> cases c <;>
    simp only [truthyFilter, keptOpt] <;> (try split_ifs) <;> simp_all

/-- C10: every persisted hospital record stores as diagnoses the
comma-join of exactly the non-empty ICD inputs, in the fixed order icd_1,
icd_2, icd_3; absent or empty optional slots are dropped. -/
theorem C10_diagnoses_join (kf : KlinikForm) (db_ok : Bool)
    (rec : KlinikRecord) (h : (submit_klinik kf db_ok).2 = some rec) :
    rec.icds = String.intercalate ","
      (keptOpt (some kf.icd_1) ++ keptOpt kf.icd_2 ++ keptOpt kf.icd_3) := by
  unfold submit_klinik at h
  cases hv : validate_job_number kf.auftragsnummer 6 with
  | error e =>
    rw [hv] at h
    simp at h
  | ok n =>
    rw [hv] at h
    cases db_ok with
    | false => simp at h
    | true =>
      simp only [if_true] at h
      injection h with h
      subst h
      simp [truthyFilter_three]

/-- Witness for C10: icd_1 "A00", an empty icd_2 and icd_3 "B99" persist
the diagnoses string "A00,B99". -/
theorem C10_diagnoses_join_witness :
    (submit_klinik ⟨"007", "007 - Klinikum", "A00", some "", some "B99",
        "Rot (Sofort)", none, "1", "2", "1", "1", "3", "2"⟩ true).2 =
      some ⟨7, "007 - Klinikum", "A00,B99", "Rot (Sofort)", none,
            "007121132"⟩ ∧
    ("A00,B99" : String) = String.intercalate ","
      (keptOpt (some "A00") ++ keptOpt (some "") ++ keptOpt (some "B99")) :=
  ⟨rfl,
   C10_diagnoses_join ⟨"007", "007 - Klinikum", "A00", some "", some "B99",
       "Rot (Sofort)", none, "1", "2", "1", "1", "3", "2"⟩ true
     ⟨7, "007 - Klinikum", "A00,B99", "Rot (Sofort)", none, "007121132"⟩ rfl⟩
